import Mathlib

/-!
Verification of the GlobalWars lobby/session layer.

Shallow embedding of:
* `src/core/game/GamePresets.ts` (`RANKED_MAP_POOL`, `pickRankedMap`,
  `createRankedGameConfig`),
* `src/client/teamSetupValidation.ts` (`ensureValidTeamSetup`),
* the coordinator loop in `src/server/Master.ts` (`fetchLobbies`,
  `scheduleLobby`, and the ranked branch of `ensureQueues`),
* the `GameServer` session state machine (not shipped in this tree; its
  phase/gameInfo/updateGameConfig behaviour is modelled from the spec and
  pinned by `tests/GameServerRanked.test.ts`).

Machine integers are modelled as `Int`/`Nat` (all quantities involved are
small counts and millisecond timestamps, far from any overflow), JS
`Math.random()` as an explicit rational in `[0,1)`, and thrown exceptions
as `Except` results.
-/

namespace GlobalWars

/-- Game map identifiers (`GameMapType` in `src/core/game/Game.ts`); the
variants named here are the ones the ranked pool and the tests use. -/
inductive GameMapType where
  | World
  | Europe
  | Asia
  | NorthAmerica
  | SouthAmerica
  | Pangaea
  | Africa
  deriving DecidableEq

/-- `GameType` enum. -/
inductive GameType where
  | Public
  | Ranked
  | Private
  deriving DecidableEq

/-- `GameMode` enum. -/
inductive GameMode where
  | FFA
  | Team
  deriving DecidableEq

/-- `FogRule` enum; `Persistent` is the ranked default. -/
inductive FogRule where
  | Persistent
  | Exploration
  deriving DecidableEq

/-- `Difficulty` enum. -/
inductive Difficulty where
  | Easy
  | Medium
  | Hard
  deriving DecidableEq

/-- `GameMapSize` enum. -/
inductive GameMapSize where
  | Normal
  | Large
  deriving DecidableEq

/-- Team-count policy (`TeamCountConfig` in `src/core/Schemas.ts`): a
literal number or one of the named policies `Duos`/`Trios`/`Quads`. -/
inductive TeamCountConfig where
  | literal (n : ℤ)
  | Duos
  | Trios
  | Quads
  deriving DecidableEq

/-- `TurnTimerConfig` from `src/core/Schemas.ts`. -/
structure TurnTimerConfig where
  queueSeconds : ℕ
  lobbySeconds : ℕ
  turnSeconds : ℕ
  deriving DecidableEq

/-- The fields of `GameConfig` (`src/core/Schemas.ts`) that the session
layer reads.  Optional schema fields are `Option`s. -/
structure GameConfig where
  gameMap : GameMapType
  mapPool : Option (List GameMapType)
  maxPlayers : Option ℕ
  gameType : GameType
  gameMode : GameMode
  playerTeams : Option TeamCountConfig
  disableNPCs : Bool
  bots : ℕ
  infiniteGold : Bool
  infiniteTroops : Bool
  instantBuild : Bool
  donateGold : Bool
  donateTroops : Bool
  gameMapSize : GameMapSize
  difficulty : Difficulty
  disabledUnits : List String
  turnTimers : Option TurnTimerConfig
  fogRule : Option FogRule
  deriving DecidableEq

/-! ## `src/core/game/GamePresets.ts` -/

/-- `RANKED_MAP_POOL` from `GamePresets.ts`. -/
def RANKED_MAP_POOL : List GameMapType :=
  [GameMapType.World, GameMapType.Europe, GameMapType.Asia,
   GameMapType.NorthAmerica, GameMapType.SouthAmerica, GameMapType.Pangaea]

/-- `RANKED_TURN_TIMERS` from `GamePresets.ts`. -/
def RANKED_TURN_TIMERS : TurnTimerConfig :=
  { queueSeconds := 60, lobbySeconds := 30, turnSeconds := 45 }

/-- `RANKED_FOG_RULE` from `GamePresets.ts`. -/
def RANKED_FOG_RULE : FogRule := FogRule.Persistent

/-- `RANKED_MAX_PLAYERS` from `GamePresets.ts`. -/
def RANKED_MAX_PLAYERS : ℕ := 40

/-- `pickRankedMap` from `GamePresets.ts`.  `rand` stands for the
`Math.random()` draw (a real in `[0,1)`, modelled as a rational); the
JS index `Math.floor(random * pool.length)` is in bounds for such `rand`,
so the `getD` default is never read then. -/
def pickRankedMap (pool : List GameMapType) (rand : ℚ) :
    Except String GameMapType :=
  if pool.length = 0 then
    Except.error "Ranked map pool cannot be empty"
  else
    let index : ℕ := (⌊rand * (pool.length : ℚ)⌋).toNat
    Except.ok (pool.getD index GameMapType.World)

/-- The subset of `Partial<GameConfig>` overrides that
`createRankedGameConfig` reads. -/
structure RankedOverrides where
  gameMap : Option GameMapType
  mapPool : Option (List GameMapType)
  maxPlayers : Option ℕ
  gameMapSize : Option GameMapSize
  difficulty : Option Difficulty
  disabledUnits : Option (List String)
  deriving DecidableEq

/-- The empty overrides object (`createRankedGameConfig()` with the
default argument). -/
def defaultRankedOverrides : RankedOverrides :=
  { gameMap := none, mapPool := none, maxPlayers := none,
    gameMapSize := none, difficulty := none, disabledUnits := none }

/-- `createRankedGameConfig` from `GamePresets.ts`.  The `rand` parameter
threads the `Math.random()` draw used by `pickRankedMap`; the function can
only fail through `pickRankedMap` (and in fact never does, since the pool
it passes is always non-empty). -/
def createRankedGameConfig (o : RankedOverrides) (rand : ℚ) :
    Except String GameConfig := do
  let pool : List GameMapType :=
    match o.mapPool with
    | some l => if l.length > 0 then l else RANKED_MAP_POOL
    | none => RANKED_MAP_POOL
  let chosenMap : GameMapType ←
    match o.gameMap with
    | some m => if m ∈ pool then pure m else pickRankedMap pool rand
    | none => pickRankedMap pool rand
  pure
    { donateGold := false
      donateTroops := false
      gameMap := chosenMap
      maxPlayers := some (o.maxPlayers.getD RANKED_MAX_PLAYERS)
      gameType := GameType.Ranked
      gameMapSize := o.gameMapSize.getD GameMapSize.Normal
      difficulty := o.difficulty.getD Difficulty.Medium
      infiniteGold := false
      infiniteTroops := false
      instantBuild := false
      disableNPCs := true
      gameMode := GameMode.FFA
      playerTeams := none
      bots := 0
      disabledUnits := o.disabledUnits.getD []
      mapPool := some pool
      turnTimers := some RANKED_TURN_TIMERS
      fogRule := some RANKED_FOG_RULE }

/-! ## `src/client/teamSetupValidation.ts` -/

/-- `TooFewTeamsError` carries the computed team count. -/
structure TooFewTeamsError where
  teamCount : ℤ
  deriving DecidableEq

/-- `resolveTeamCount` from `teamSetupValidation.ts`.  A literal policy is
returned as-is; the named policies compute `Math.ceil(totalPlayers / k)`,
written here as the natural-number ceiling division `(t + k - 1) / k`.
The source's `default` branch (unknown policy) is unreachable for this
inductive policy type. -/
def resolveTeamCount (teamConfig : TeamCountConfig) (totalPlayers : ℕ) : ℤ :=
  match teamConfig with
  | TeamCountConfig.literal n => n
  | TeamCountConfig.Duos => ((totalPlayers + 1) / 2 : ℕ)
  | TeamCountConfig.Trios => ((totalPlayers + 2) / 3 : ℕ)
  | TeamCountConfig.Quads => ((totalPlayers + 3) / 4 : ℕ)

/-- A nation entry of the terrain manifest (`TerrainMapLoader.ts`); only
the number of nations matters to the validator. -/
structure Nation where
  coordinates : ℕ × ℕ
  flag : String
  name : String
  deriving DecidableEq

/-- `TerrainMapData` restricted to what `ensureValidTeamSetup` reads. -/
structure TerrainMapData where
  nations : List Nation
  deriving DecidableEq

/-- The `Config` interface as consumed by the validator: `gameConfig()`
and `playerTeams()` accessors. -/
structure Config where
  gameConfig : GameConfig
  playerTeams : TeamCountConfig
  deriving DecidableEq

/-- `ensureValidTeamSetup` from `teamSetupValidation.ts`; a thrown
`TooFewTeamsError` becomes an `Except.error`. -/
def ensureValidTeamSetup (config : Config) (terrainData : TerrainMapData)
    (humanCount : ℕ) (disableNPCs : Bool) : Except TooFewTeamsError Unit :=
  if config.gameConfig.gameMode ≠ GameMode.Team then
    Except.ok ()
  else
    let npcCount := if disableNPCs then 0 else terrainData.nations.length
    let actualPlayers := humanCount + npcCount
    let configuredHumanCapacity := config.gameConfig.maxPlayers.getD humanCount
    let configuredTotalPlayers := configuredHumanCapacity + npcCount
    let totalPlayers := max actualPlayers configuredTotalPlayers
    let teamCount := resolveTeamCount config.playerTeams totalPlayers
    if teamCount < 2 then Except.error { teamCount := teamCount }
    else Except.ok ()

/-! ## Game session state machine (`src/server/GameServer.ts`)

The `GameServer` class itself is not part of this tree; only its ranked
test is.  The definitions below are modelled from the spec (§4.1, §4.3,
`msUntilStart` reporting) and agree with every observation made by
`tests/GameServerRanked.test.ts`. -/

/-- `GamePhase` as imported by `tests/GameServerRanked.test.ts`. -/
inductive GamePhase where
  | RankedQueue
  | Lobby
  | Active
  | Finished
  deriving DecidableEq

/-- Modelled from the spec: the mutable session state of a `GameServer`
(§3 GameSession) — identifier, creation timestamp (ms), config, roster
size, the `hasStarted` flag and the `lastPingUpdate` timestamp (ms). -/
structure GameServer where
  id : String
  createdAt : ℤ
  gameConfig : GameConfig
  activeClients : ℕ
  hasStarted : Bool
  lastPingUpdate : ℤ
  deriving DecidableEq

/-- The session's turn timers, falling back to the ranked defaults when
the config carries none. -/
def GameServer.turnTimers (s : GameServer) : TurnTimerConfig :=
  s.gameConfig.turnTimers.getD RANKED_TURN_TIMERS

/-- The fixed ranked queue deadline: creation timestamp plus
`queueSeconds * 1000` milliseconds. -/
def GameServer.queueDeadline (s : GameServer) : ℤ :=
  s.createdAt + (s.turnTimers.queueSeconds : ℤ) * 1000

/-- Whether the roster has reached the configured `maxPlayers`. -/
def GameServer.rosterFull (s : GameServer) : Prop :=
  match s.gameConfig.maxPlayers with
  | some mp => s.activeClients ≥ mp
  | none => False

instance (s : GameServer) : Decidable s.rosterFull := by
  unfold GameServer.rosterFull
  cases s.gameConfig.maxPlayers <;> infer_instance

/-- Modelled from the spec: `GameServer.phase()` (§4.1), computed on read
at wall-clock time `now`.  Once started, the session is `Finished` when
`lastPingUpdate` is more than 20 s in the past, else `Active`; before
start, a ranked session is in `RankedQueue` until the roster reaches
`maxPlayers` or the queue deadline is strictly exceeded, after which it is
in `Lobby`; non-ranked sessions start directly in `Lobby`. -/
def GameServer.phase (s : GameServer) (now : ℤ) : GamePhase :=
  if s.hasStarted then
    if now - s.lastPingUpdate > 20000 then GamePhase.Finished
    else GamePhase.Active
  else if s.gameConfig.gameType = GameType.Ranked then
    if s.rosterFull ∨ now > s.queueDeadline then GamePhase.Lobby
    else GamePhase.RankedQueue
  else GamePhase.Lobby

/-- The externally visible snapshot (`GameInfo` in `src/core/Schemas.ts`)
as produced by a session. -/
structure SessionGameInfo where
  gameID : String
  numClients : ℕ
  gameConfig : GameConfig
  msUntilStart : ℤ
  deriving DecidableEq

/-- Modelled from the spec: `GameServer.gameInfo()`.  `msUntilStart` is a
fixed deadline recomputed identically regardless of the query time `now`:
for ranked sessions `creationTime + queueSeconds*1000`, for non-ranked
sessions `creationTime + lobbySeconds*1000`. -/
def GameServer.gameInfo (s : GameServer) (_now : ℤ) : SessionGameInfo :=
  { gameID := s.id
    numClients := s.activeClients
    gameConfig := s.gameConfig
    msUntilStart :=
      if s.gameConfig.gameType = GameType.Ranked then s.queueDeadline
      else s.createdAt + (s.turnTimers.lobbySeconds : ℤ) * 1000 }

/-- The update payload relevant to ranked gating: candidate `gameMap`
and/or candidate `mapPool`. -/
structure GameConfigUpdate where
  gameMap : Option GameMapType
  mapPool : Option (List GameMapType)
  deriving DecidableEq

/-- Modelled from the spec: the ranked branch of
`GameServer.updateGameConfig` (§4.3).  A candidate `gameMap` is accepted
only if it is a member of `RANKED_MAP_POOL`, otherwise silently ignored; a
submitted `mapPool` is stored filtered to members of `RANKED_MAP_POOL`, in
submitted order.  The function is total: invalid input never raises. -/
def updateGameConfig (cfg : GameConfig) (u : GameConfigUpdate) : GameConfig :=
  let cfg1 :=
    match u.gameMap with
    | some m =>
        if m ∈ RANKED_MAP_POOL then { cfg with gameMap := m } else cfg
    | none => cfg
  match u.mapPool with
  | some l =>
      { cfg1 with
        mapPool := some (l.filter (fun m => decide (m ∈ RANKED_MAP_POOL))) }
  | none => cfg1

/-- Modelled from the spec: the inputs a live session can receive after
creation — roster changes, liveness (ping) updates, configuration
updates, and the passage of wall-clock time. -/
inductive SessionInput where
  | setRoster (n : ℕ)
  | ping
  | updateConfig (u : GameConfigUpdate)
  | advanceClock (d : ℕ)
  deriving DecidableEq

/-- Modelled from the spec: the effect of one input on the session state
paired with the current wall-clock time.  A ping sets `lastPingUpdate` to
the current time; the clock only moves forward. -/
def stepSession : GameServer × ℤ → SessionInput → GameServer × ℤ
  | (s, now), SessionInput.setRoster n => ({ s with activeClients := n }, now)
  | (s, now), SessionInput.ping => ({ s with lastPingUpdate := now }, now)
  | (s, now), SessionInput.updateConfig u =>
      ({ s with gameConfig := updateGameConfig s.gameConfig u }, now)
  | (s, now), SessionInput.advanceClock d => (s, now + (d : ℤ))

/-- Running a whole input sequence. -/
def runSession (st : GameServer × ℤ) (inputs : List SessionInput) :
    GameServer × ℤ :=
  inputs.foldl stepSession st

/-! ## Coordinator reconciliation (`src/server/Master.ts`) -/

/-- A worker's `GameInfo` response as the coordinator's `fetchLobbies`
parses it: every field it reads is optional at that boundary. -/
structure WorkerGameInfo where
  gameID : String
  clients : Option (List String)
  numClients : Option ℕ
  msUntilStart : Option ℤ
  gameConfig : Option GameConfig
  deriving DecidableEq

/-- An entry of the published public-lobby snapshot (`lobbyInfos`). -/
structure LobbyEntryOut where
  gameID : String
  numClients : ℕ
  gameConfig : GameConfig
  msUntilStart : ℤ
  deriving DecidableEq

/-- `LobbyCounts`: surviving lobby tallies by game type. -/
structure LobbyCounts where
  publicCount : ℕ
  rankedCount : ℕ
  deriving DecidableEq

/-- The per-lobby body of `fetchLobbies` (Master.ts): the bounded-timeout
status request followed by the eviction checks of `results.forEach`.
`fetch gameID = none` models a failed or timed-out (5 s abort) request,
whose `catch` already deletes the lobby.  Returns the snapshot entry for
a surviving lobby and `none` for a dropped one. -/
def processLobby (fetch : String → Option WorkerGameInfo) (now : ℤ)
    (gameID : String) : Option LobbyEntryOut :=
  match fetch gameID with
  | none => none
  | some info =>
    match info.gameConfig with
    | none => none
    | some cfg =>
      let msUntilStart := info.msUntilStart.getD now - now
      let numClients :=
        match info.clients with
        | some cs => cs.length
        | none => info.numClients.getD 0
      if msUntilStart ≤ 250 then none
      else
        match cfg.maxPlayers with
        | some mp =>
            if numClients ≥ mp then none
            else some { gameID := info.gameID, numClients := numClients,
                        gameConfig := cfg, msUntilStart := msUntilStart }
        | none =>
            some { gameID := info.gameID, numClients := numClients,
                   gameConfig := cfg, msUntilStart := msUntilStart }

/-- `fetchLobbies` (Master.ts): one reconciliation pass over the
materialized registry entries.  Returns the registry after evictions, the
published snapshot, and the per-type counts of surviving lobbies.  The
imperative loop deletes evicted ids from the live map and pushes surviving
infos in entry order; both are reproduced here by filtering on the
per-entry decision, which depends only on that entry's own fetch result. -/
def fetchLobbies (reg : List (String × GameType))
    (fetch : String → Option WorkerGameInfo) (now : ℤ) :
    List (String × GameType) × List LobbyEntryOut × LobbyCounts :=
  let keep : String × GameType → Bool :=
    fun e => (processLobby fetch now e.1).isSome
  ( reg.filter keep,
    reg.filterMap (fun e => processLobby fetch now e.1),
    { publicCount :=
        (reg.filter (fun e => keep e && decide (e.2 = GameType.Public))).length
      rankedCount :=
        (reg.filter (fun e => keep e && decide (e.2 = GameType.Ranked))).length } )

/-- `RANKED_QUEUE_COOLDOWN_MS` (Master.ts). -/
def RANKED_QUEUE_COOLDOWN_MS : ℤ := 3 * 60000

/-- The ranked branch of `ensureQueues` (Master.ts).  Given the recorded
`lastRankedScheduledAt` marker, the current time, the ranked-lobby count
from `fetchLobbies`, and whether the `scheduleLobby` call fails, returns
the new marker value and whether a ranked lobby was scheduled on this
tick.  The source sets the marker to `now` before calling `scheduleLobby`
and resets it to `0` in the rejection handler; the pair below is the
resulting state. -/
def ensureRankedQueue (lastRankedScheduledAt : ℤ) (now : ℤ)
    (rankedCount : ℕ) (schedulingFails : Bool) : ℤ × Bool :=
  if rankedCount = 0 then
    if now - lastRankedScheduledAt ≥ RANKED_QUEUE_COOLDOWN_MS then
      (if schedulingFails then 0 else now, true)
    else (lastRankedScheduledAt, false)
  else (lastRankedScheduledAt, false)

/-- `Map.set` on the registry association list (insertion order kept;
an existing key is overwritten in place). -/
def mapSet (reg : List (String × GameType)) (k : String) (v : GameType) :
    List (String × GameType) :=
  if reg.any (fun e => e.1 = k) then
    reg.map (fun e => if e.1 = k then (k, v) else e)
  else reg ++ [(k, v)]

/-- `Map.delete` on the registry association list. -/
def mapDelete (reg : List (String × GameType)) (k : String) :
    List (String × GameType) :=
  reg.filter (fun e => e.1 ≠ k)

/-- `scheduleLobby` (Master.ts).  `newID` stands for the generated game
identifier and `createOk` for whether the worker's create-game call
succeeds with an ok response.  Returns the resulting registry and whether
the function rethrew. -/
def scheduleLobby (reg : List (String × GameType)) (gameConfig : GameConfig)
    (newID : String) (createOk : Bool) : List (String × GameType) × Bool :=
  let gameType := gameConfig.gameType
  if gameType ≠ GameType.Public ∧ gameType ≠ GameType.Ranked then
    (reg, false)
  else
    let reg1 := mapSet reg newID gameType
    if createOk then (reg1, false)
    else (mapDelete reg1 newID, true)

/-! ## Helper lemmas -/

/-- Ceiling of a natural division by 2 agrees with `(t + 1) / 2`. -/
lemma ceil_div_two (t : ℕ) : ⌈(t : ℚ) / 2⌉ = (((t + 1) / 2 : ℕ) : ℤ) := by
  rw [Int.ceil_eq_iff]
  constructor
  · rw [lt_div_iff₀ (by norm_num : (0 : ℚ) < 2)]
    have h : ((((t + 1) / 2 : ℕ) : ℤ) - 1) * 2 < (t : ℤ) := by omega
    exact_mod_cast h
  · rw [div_le_iff₀ (by norm_num : (0 : ℚ) < 2)]
    have h : (t : ℤ) ≤ (((t + 1) / 2 : ℕ) : ℤ) * 2 := by omega
    exact_mod_cast h

/-- Ceiling of a natural division by 3 agrees with `(t + 2) / 3`. -/
lemma ceil_div_three (t : ℕ) : ⌈(t : ℚ) / 3⌉ = (((t + 2) / 3 : ℕ) : ℤ) := by
  rw [Int.ceil_eq_iff]
  constructor
  · rw [lt_div_iff₀ (by norm_num : (0 : ℚ) < 3)]
    have h : ((((t + 2) / 3 : ℕ) : ℤ) - 1) * 3 < (t : ℤ) := by omega
    exact_mod_cast h
  · rw [div_le_iff₀ (by norm_num : (0 : ℚ) < 3)]
    have h : (t : ℤ) ≤ (((t + 2) / 3 : ℕ) : ℤ) * 3 := by omega
    exact_mod_cast h

/-- Ceiling of a natural division by 4 agrees with `(t + 3) / 4`. -/
lemma ceil_div_four (t : ℕ) : ⌈(t : ℚ) / 4⌉ = (((t + 3) / 4 : ℕ) : ℤ) := by
  rw [Int.ceil_eq_iff]
  constructor
  · rw [lt_div_iff₀ (by norm_num : (0 : ℚ) < 4)]
    have h : ((((t + 3) / 4 : ℕ) : ℤ) - 1) * 4 < (t : ℤ) := by omega
    exact_mod_cast h
  · rw [div_le_iff₀ (by norm_num : (0 : ℚ) < 4)]
    have h : (t : ℤ) ≤ (((t + 3) / 4 : ℕ) : ℤ) * 4 := by omega
    exact_mod_cast h

/-- For a random draw in `[0,1)`, `pickRankedMap` on a non-empty pool
returns a member of the pool. -/
lemma pickRankedMap_mem (pool : List GameMapType) (rand : ℚ)
    (_h0 : 0 ≤ rand) (h1 : rand < 1) (hne : pool ≠ []) :
    ∃ m ∈ pool, pickRankedMap pool rand = Except.ok m := by
  have hlen : pool.length ≠ 0 := by
    simpa using fun h => hne (List.length_eq_zero.mp h)
  have hpos : (0 : ℚ) < (pool.length : ℚ) := by
    exact_mod_cast Nat.pos_of_ne_zero hlen
  have hflt : ⌊rand * (pool.length : ℚ)⌋ < (pool.length : ℤ) := by
    rw [Int.floor_lt]
    calc rand * (pool.length : ℚ) < 1 * (pool.length : ℚ) := by
          exact mul_lt_mul_of_pos_right h1 hpos
      _ = ((pool.length : ℤ) : ℚ) := by push_cast; ring
  have hidx : (⌊rand * (pool.length : ℚ)⌋).toNat < pool.length := by
    omega
  refine ⟨pool.getD (⌊rand * (pool.length : ℚ)⌋).toNat GameMapType.World, ?_, ?_⟩
  · rw [List.getD_eq_getElem pool GameMapType.World hidx]
    exact List.getElem_mem hidx
  · unfold pickRankedMap
    simp [hlen]

/-! ## Claim theorems -/

/-- C9: `pickRankedMap(pool)` raises the fatal error
"Ranked map pool cannot be empty" exactly when the given pool is empty,
and for every non-empty pool (and every value of the random draw in
`[0,1)`) it returns an element of that pool. -/
theorem pickRankedMap_empty_iff_and_mem (pool : List GameMapType) (rand : ℚ)
    (h0 : 0 ≤ rand) (h1 : rand < 1) :
    (pickRankedMap pool rand = Except.error "Ranked map pool cannot be empty"
      ↔ pool = []) ∧
    (pool ≠ [] → ∃ m ∈ pool, pickRankedMap pool rand = Except.ok m) := by
  constructor
  · constructor
    · intro h
      by_contra hne
      obtain ⟨m, _, hok⟩ := pickRankedMap_mem pool rand h0 h1 hne
      rw [hok] at h
      exact Except.noConfusion h
    · intro h
      subst h
      rfl
  · intro hne
    exact pickRankedMap_mem pool rand h0 h1 hne

/-- Witness for C9: the theorem applied to the concrete ranked pool and
the draw `1/2`. -/
theorem pickRankedMap_empty_iff_and_mem_witness :
    (pickRankedMap RANKED_MAP_POOL (1 / 2) =
        Except.error "Ranked map pool cannot be empty"
      ↔ RANKED_MAP_POOL = []) ∧
    (RANKED_MAP_POOL ≠ [] →
      ∃ m ∈ RANKED_MAP_POOL,
        pickRankedMap RANKED_MAP_POOL (1 / 2) = Except.ok m) :=
  pickRankedMap_empty_iff_and_mem RANKED_MAP_POOL (1 / 2)
    (by norm_num) (by norm_num)

/-- C2: `ensureValidTeamSetup` throws `TooFewTeamsError` carrying the
computed team count exactly when `gameMode` is team and the resolved team
count is below 2, where the resolved count is the literal integer itself
or `⌈totalPlayers / groupSize⌉` for group sizes 2/3/4, with
`npcCount = (disableNPCs ? 0 : number of nations)` and
`totalPlayers = max (humanCount + npcCount)
((config.maxPlayers ?? humanCount) + npcCount)`; when `gameMode` is not
team it returns without raising regardless of all other inputs. -/
theorem ensureValidTeamSetup_spec (config : Config)
    (terrainData : TerrainMapData) (humanCount : ℕ) (disableNPCs : Bool) :
    ensureValidTeamSetup config terrainData humanCount disableNPCs =
      (let npcCount :=
        if disableNPCs then 0 else terrainData.nations.length
       let totalPlayers :=
        max (humanCount + npcCount)
          (config.gameConfig.maxPlayers.getD humanCount + npcCount)
       let teamCount : ℤ :=
        match config.playerTeams with
        | TeamCountConfig.literal n => n
        | TeamCountConfig.Duos => ⌈(totalPlayers : ℚ) / 2⌉
        | TeamCountConfig.Trios => ⌈(totalPlayers : ℚ) / 3⌉
        | TeamCountConfig.Quads => ⌈(totalPlayers : ℚ) / 4⌉
       if config.gameConfig.gameMode = GameMode.Team ∧ teamCount < 2 then
         Except.error { teamCount := teamCount }
       else Except.ok ()) := by
  unfold ensureValidTeamSetup
  by_cases hm : config.gameConfig.gameMode = GameMode.Team
  · simp only [hm, ne_eq, not_true_eq_false, if_false, true_and]
    cases hpt : config.playerTeams with
    | literal n => rfl
    | Duos => rw [ceil_div_two]; rfl
    | Trios => rw [ceil_div_three]; rfl
    | Quads => rw [ceil_div_four]; rfl
  · simp only [hm, ne_eq, not_false_eq_true, if_true, false_and, if_false]

/-- C10: a `scheduleLobby` call whose create-game request fails or returns
a non-ok response removes the newly added game identifier from the
registry before rethrowing, so a failed scheduling attempt on a fresh
identifier leaves the registry unchanged; for a game type other than
Public or Ranked, `scheduleLobby` returns without modifying the registry
at all. -/
theorem scheduleLobby_atomic (reg : List (String × GameType))
    (cfg : GameConfig) (newID : String) (createOk : Bool) :
    (cfg.gameType ≠ GameType.Public ∧ cfg.gameType ≠ GameType.Ranked →
      scheduleLobby reg cfg newID createOk = (reg, false)) ∧
    ((cfg.gameType = GameType.Public ∨ cfg.gameType = GameType.Ranked) →
      createOk = false → newID ∉ reg.map Prod.fst →
      scheduleLobby reg cfg newID createOk = (reg, true)) := by
  constructor
  · intro hother
    unfold scheduleLobby
    simp only [hother.1, hother.2, ne_eq, not_false_eq_true, and_self,
      if_true]
  · intro htype hfail hfresh
    have hkeys : ∀ e ∈ reg, e.1 ≠ newID := by
      intro e he heq
      exact hfresh (heq ▸ List.mem_map_of_mem Prod.fst he)
    have hany : reg.any (fun e => e.1 = newID) = false := by
      rw [List.any_eq_false]
      intro e he
      simpa using hkeys e he
    have hguard : ¬(cfg.gameType ≠ GameType.Public ∧
        cfg.gameType ≠ GameType.Ranked) := by
      rcases htype with h | h <;> simp [h]
    unfold scheduleLobby mapSet mapDelete
    rw [if_neg hguard, hany]
    simp only [Bool.false_eq_true, if_false, hfail, List.filter_append]
    have h1 : reg.filter (fun e => decide (e.1 ≠ newID)) = reg := by
      rw [List.filter_eq_self]
      intro e he
      simpa using hkeys e he
    have h2 : [(newID, cfg.gameType)].filter
        (fun e => decide (e.1 ≠ newID)) = [] := by
      simp
    rw [h1, h2, List.append_nil]

/-- Witness for C10: a failed ranked scheduling attempt on a fresh id
leaves a concrete one-entry registry unchanged, and a `Private` config
never touches it. -/
theorem scheduleLobby_atomic_witness :
    scheduleLobby [("abc", GameType.Public)]
        { gameMap := GameMapType.World, mapPool := none,
          maxPlayers := none, gameType := GameType.Ranked,
          gameMode := GameMode.FFA, playerTeams := none,
          disableNPCs := true, bots := 0, infiniteGold := false,
          infiniteTroops := false, instantBuild := false,
          donateGold := false, donateTroops := false,
          gameMapSize := GameMapSize.Normal,
          difficulty := Difficulty.Medium, disabledUnits := [],
          turnTimers := none, fogRule := none }
        "xyz" false = ([("abc", GameType.Public)], true) :=
  (scheduleLobby_atomic [("abc", GameType.Public)] _ "xyz" false).2
    (Or.inr rfl) rfl (by decide)

/-- C7: on a coordinator tick with zero ranked lobbies — if less than
3 minutes have elapsed since the recorded last ranked scheduling attempt,
no ranked lobby is scheduled and the marker is unchanged; if at least
3 minutes have elapsed, exactly one ranked lobby is scheduled and the
marker becomes the current time (or is reset to 0 when the scheduling call
fails, enabling an immediate retry); in particular with no attempt
recorded (marker 0) and a wall-clock time at least the cooldown, one is
scheduled. -/
theorem ensureRankedQueue_cooldown (last now : ℤ) (fails : Bool) :
    (now - last < RANKED_QUEUE_COOLDOWN_MS →
      ensureRankedQueue last now 0 fails = (last, false)) ∧
    (now - last ≥ RANKED_QUEUE_COOLDOWN_MS →
      ensureRankedQueue last now 0 fails =
        (if fails then 0 else now, true)) ∧
    (last = 0 → RANKED_QUEUE_COOLDOWN_MS ≤ now →
      (ensureRankedQueue last now 0 fails).2 = true) := by
  refine ⟨?_, ?_, ?_⟩
  · intro hlt
    unfold ensureRankedQueue
    rw [if_pos rfl, if_neg (by omega)]
  · intro hge
    unfold ensureRankedQueue
    rw [if_pos rfl, if_pos (by omega)]
  · intro hzero hnow
    unfold ensureRankedQueue
    rw [if_pos rfl, if_pos (by omega)]

/-- Witness for C7: with marker 0 and the clock one cooldown past the
epoch, a tick with zero ranked lobbies schedules exactly one ranked lobby;
ten seconds after a successful attempt nothing is scheduled. -/
theorem ensureRankedQueue_cooldown_witness :
    ensureRankedQueue 180000 190000 0 false = (180000, false) ∧
    ensureRankedQueue 0 180000 0 false = (if false then 0 else 180000, true) ∧
    (ensureRankedQueue 0 180000 0 true).2 = true :=
  ⟨(ensureRankedQueue_cooldown 180000 190000 false).1
      (by unfold RANKED_QUEUE_COOLDOWN_MS; norm_num),
   (ensureRankedQueue_cooldown 0 180000 false).2.1
      (by unfold RANKED_QUEUE_COOLDOWN_MS; norm_num),
   (ensureRankedQueue_cooldown 0 180000 true).2.2 rfl
      (by unfold RANKED_QUEUE_COOLDOWN_MS; norm_num)⟩

/-- The eviction conditions of one reconciliation step, as the spec words
them: status request failed or timed out, no `gameConfig` in the reply,
remaining time-to-start at most 250 ms, or client count at configured
capacity. -/
def lobbyDropped (fetch : String → Option WorkerGameInfo) (now : ℤ)
    (g : String) : Prop :=
  match fetch g with
  | none => True
  | some info =>
    match info.gameConfig with
    | none => True
    | some cfg =>
        info.msUntilStart.getD now - now ≤ 250 ∨
        ∃ mp, cfg.maxPlayers = some mp ∧
          (match info.clients with
           | some cs => cs.length
           | none => info.numClients.getD 0) ≥ mp

/-- `processLobby` returns no snapshot entry exactly under the spec's
eviction conditions. -/
lemma processLobby_eq_none_iff (fetch : String → Option WorkerGameInfo)
    (now : ℤ) (g : String) :
    processLobby fetch now g = none ↔ lobbyDropped fetch now g := by
  unfold processLobby lobbyDropped
  cases fetch g with
  | none => simp
  | some info =>
    obtain ⟨gid, cls, ncl, ms, gcfg⟩ := info
    cases gcfg with
    | none => simp
    | some cfg =>
      by_cases hms : ms.getD now - now ≤ 250
      · simp [hms]
      · cases hmp : cfg.maxPlayers with
        | none => simp [hms, hmp]
        | some mp =>
          by_cases hn :
              (match cls with
               | some cs => cs.length
               | none => ncl.getD 0) ≥ mp
          · simp [hms, hmp, hn]
          · simp [hms, hmp, hn]

/-- C6: on a reconciliation tick, a tracked lobby is deleted from the
registry exactly when its status request fails or times out, the returned
info has no `gameConfig`, its remaining time-to-start is at most 250 ms,
or its client count has reached the configured `maxPlayers`; a dropped
lobby contributes no snapshot entry, every surviving lobby's entry appears
in the published snapshot, and the counts tally the surviving lobbies by
game type. -/
theorem fetchLobbies_drop_iff (reg : List (String × GameType))
    (fetch : String → Option WorkerGameInfo) (now : ℤ) (g : String)
    (t : GameType) (hmem : (g, t) ∈ reg) :
    (((g, t) ∈ (fetchLobbies reg fetch now).1) ↔ ¬ lobbyDropped fetch now g) ∧
    (lobbyDropped fetch now g → processLobby fetch now g = none) ∧
    (¬ lobbyDropped fetch now g →
      ∃ e, processLobby fetch now g = some e ∧
        e ∈ (fetchLobbies reg fetch now).2.1) ∧
    (fetchLobbies reg fetch now).2.2.publicCount =
      (((fetchLobbies reg fetch now).1).filter
        (fun e => decide (e.2 = GameType.Public))).length ∧
    (fetchLobbies reg fetch now).2.2.rankedCount =
      (((fetchLobbies reg fetch now).1).filter
        (fun e => decide (e.2 = GameType.Ranked))).length := by
  refine ⟨?_, ?_, ?_, ?_, ?_⟩
  · rw [show (fetchLobbies reg fetch now).1 =
        reg.filter (fun e => (processLobby fetch now e.1).isSome) from rfl]
    rw [List.mem_filter]
    constructor
    · rintro ⟨-, hkeep⟩
      rw [← processLobby_eq_none_iff]
      simp only [Option.isSome_iff_ne_none] at hkeep
      exact hkeep
    · intro hnd
      refine ⟨hmem, ?_⟩
      rw [← processLobby_eq_none_iff] at hnd
      simpa [Option.isSome_iff_ne_none] using hnd
  · intro hd
    exact (processLobby_eq_none_iff fetch now g).mpr hd
  · intro hnd
    rw [← processLobby_eq_none_iff] at hnd
    obtain ⟨e, he⟩ := Option.ne_none_iff_exists'.mp hnd
    refine ⟨e, he, ?_⟩
    exact List.mem_filterMap.mpr ⟨(g, t), hmem, he⟩
  · simp only [fetchLobbies, List.filter_filter, Bool.and_comm]
  · simp only [fetchLobbies, List.filter_filter, Bool.and_comm]

/-- A concrete public `GameConfig` used by the C6 witness scenario. -/
def witnessPublicCfg : GameConfig :=
  { gameMap := GameMapType.World, mapPool := none, maxPlayers := some 50,
    gameType := GameType.Public, gameMode := GameMode.FFA,
    playerTeams := none, disableNPCs := false, bots := 400,
    infiniteGold := false, infiniteTroops := false, instantBuild := false,
    donateGold := false, donateTroops := false,
    gameMapSize := GameMapSize.Normal, difficulty := Difficulty.Medium,
    disabledUnits := [], turnTimers := none, fogRule := none }

/-- The worker reply for the healthy lobby of the C6 witness scenario. -/
def witnessInfo : WorkerGameInfo :=
  { gameID := "g2", clients := some ["c1"], numClients := none,
    msUntilStart := some 60000, gameConfig := some witnessPublicCfg }

/-- The C6 witness registry: one lobby whose status request times out and
one healthy lobby. -/
def witnessReg : List (String × GameType) :=
  [("g1", GameType.Public), ("g2", GameType.Ranked)]

/-- The C6 witness fetch oracle: the request for `g1` times out, `g2`
answers with a healthy joinable lobby. -/
def witnessFetch : String → Option WorkerGameInfo :=
  fun g => if g = "g2" then some witnessInfo else none

/-- Witness for C6: the theorem applied to the lobby `g1` whose status
request times out, inside the concrete registry `witnessReg`. -/
theorem fetchLobbies_drop_iff_witness :
    ((("g1", GameType.Public) ∈ (fetchLobbies witnessReg witnessFetch 0).1) ↔
      ¬ lobbyDropped witnessFetch 0 "g1") ∧
    (lobbyDropped witnessFetch 0 "g1" →
      processLobby witnessFetch 0 "g1" = none) ∧
    (¬ lobbyDropped witnessFetch 0 "g1" →
      ∃ e, processLobby witnessFetch 0 "g1" = some e ∧
        e ∈ (fetchLobbies witnessReg witnessFetch 0).2.1) ∧
    (fetchLobbies witnessReg witnessFetch 0).2.2.publicCount =
      (((fetchLobbies witnessReg witnessFetch 0).1).filter
        (fun e => decide (e.2 = GameType.Public))).length ∧
    (fetchLobbies witnessReg witnessFetch 0).2.2.rankedCount =
      (((fetchLobbies witnessReg witnessFetch 0).1).filter
        (fun e => decide (e.2 = GameType.Ranked))).length :=
  fetchLobbies_drop_iff witnessReg witnessFetch 0 "g1" GameType.Public
    (by simp [witnessReg])

/-- Any successful `createRankedGameConfig` result has the ranked game
type, the override-or-default `maxPlayers`, the ranked turn timers, and a
non-empty `mapPool` containing its `gameMap`. -/
lemma createRankedGameConfig_ok (o : RankedOverrides) (rand : ℚ)
    (h0 : 0 ≤ rand) (h1 : rand < 1) (cfg : GameConfig)
    (h : createRankedGameConfig o rand = Except.ok cfg) :
    cfg.gameType = GameType.Ranked ∧
    cfg.maxPlayers = some (o.maxPlayers.getD RANKED_MAX_PLAYERS) ∧
    cfg.turnTimers = some RANKED_TURN_TIMERS ∧
    cfg.gameMode = GameMode.FFA ∧
    ∃ pool, cfg.mapPool = some pool ∧ pool ≠ [] ∧ cfg.gameMap ∈ pool := by
  unfold createRankedGameConfig at h
  set pool : List GameMapType :=
    (match o.mapPool with
     | some l => if l.length > 0 then l else RANKED_MAP_POOL
     | none => RANKED_MAP_POOL) with hpooldef
  have hpne : pool ≠ [] := by
    rw [hpooldef]
    rcases o.mapPool with _ | l
    · simp [RANKED_MAP_POOL]
    · dsimp only
      split
      · intro hnil
        simp [hnil] at *
      · simp [RANKED_MAP_POOL]
  have hmain : ∀ m : GameMapType, m ∈ pool →
      (pure m >>= fun chosenMap =>
        (pure { donateGold := false, donateTroops := false,
                gameMap := chosenMap,
                maxPlayers := some (o.maxPlayers.getD RANKED_MAX_PLAYERS),
                gameType := GameType.Ranked,
                gameMapSize := o.gameMapSize.getD GameMapSize.Normal,
                difficulty := o.difficulty.getD Difficulty.Medium,
                infiniteGold := false, infiniteTroops := false,
                instantBuild := false, disableNPCs := true,
                gameMode := GameMode.FFA, playerTeams := none, bots := 0,
                disabledUnits := o.disabledUnits.getD [],
                mapPool := some pool,
                turnTimers := some RANKED_TURN_TIMERS,
                fogRule := some RANKED_FOG_RULE } :
          Except String GameConfig)) = Except.ok cfg →
      cfg.gameType = GameType.Ranked ∧
      cfg.maxPlayers = some (o.maxPlayers.getD RANKED_MAX_PLAYERS) ∧
      cfg.turnTimers = some RANKED_TURN_TIMERS ∧
      cfg.gameMode = GameMode.FFA ∧
      ∃ p, cfg.mapPool = some p ∧ p ≠ [] ∧ cfg.gameMap ∈ p := by
    intro m hm hh
    have hcfg : cfg =
        { donateGold := false, donateTroops := false, gameMap := m,
          maxPlayers := some (o.maxPlayers.getD RANKED_MAX_PLAYERS),
          gameType := GameType.Ranked,
          gameMapSize := o.gameMapSize.getD GameMapSize.Normal,
          difficulty := o.difficulty.getD Difficulty.Medium,
          infiniteGold := false, infiniteTroops := false,
          instantBuild := false, disableNPCs := true,
          gameMode := GameMode.FFA, playerTeams := none, bots := 0,
          disabledUnits := o.disabledUnits.getD [],
          mapPool := some pool, turnTimers := some RANKED_TURN_TIMERS,
          fogRule := some RANKED_FOG_RULE } := by
      have := hh
      simp only [pure, Except.pure, bind, Except.bind] at this
      exact (Except.ok.injEq _ _).mp this.symm
    subst hcfg
    exact ⟨rfl, rfl, rfl, rfl, pool, rfl, hpne, hm⟩
  rcases hgm : o.gameMap with _ | m
  · rw [hgm] at h
    dsimp only at h
    obtain ⟨m, hm, hpick⟩ := pickRankedMap_mem pool rand h0 h1 hpne
    rw [hpick] at h
    exact hmain m hm h
  · rw [hgm] at h
    dsimp only at h
    by_cases hmem : m ∈ pool
    · rw [if_pos hmem] at h
      exact hmain m hmem h
    · rw [if_neg hmem] at h
      obtain ⟨m', hm', hpick⟩ := pickRankedMap_mem pool rand h0 h1 hpne
      rw [hpick] at h
      exact hmain m' hm' h

/-- C1: for a ranked session created at time `T` with the default ranked
preset (spec-modelled `phase` over the real `createRankedGameConfig`
preset), `phase()` is `RankedQueue` while the roster is below
`maxPlayers` (40) and the clock has not exceeded `T + queueSeconds`
(60 s); it is `Lobby` as soon as the roster reaches `maxPlayers` or the
clock strictly exceeds the queue deadline; it is never `Active` without
the `hasStarted` flag; and once started it is `Finished` exactly when
`lastPingUpdate` is more than 20 s in the past, else `Active`. -/
theorem phase_ranked_default (rand : ℚ) (cfg : GameConfig)
    (h0 : 0 ≤ rand) (h1 : rand < 1)
    (hcfg : createRankedGameConfig defaultRankedOverrides rand =
      Except.ok cfg)
    (id : String) (T now ping : ℤ) (roster : ℕ) :
    (roster < RANKED_MAX_PLAYERS → now ≤ T + 60 * 1000 →
      GameServer.phase ⟨id, T, cfg, roster, false, ping⟩ now =
        GamePhase.RankedQueue) ∧
    (RANKED_MAX_PLAYERS ≤ roster ∨ T + 60 * 1000 < now →
      GameServer.phase ⟨id, T, cfg, roster, false, ping⟩ now =
        GamePhase.Lobby) ∧
    (GameServer.phase ⟨id, T, cfg, roster, false, ping⟩ now ≠
      GamePhase.Active) ∧
    (20000 < now - ping →
      GameServer.phase ⟨id, T, cfg, roster, true, ping⟩ now =
        GamePhase.Finished) ∧
    (now - ping ≤ 20000 →
      GameServer.phase ⟨id, T, cfg, roster, true, ping⟩ now =
        GamePhase.Active) := by
  obtain ⟨hgt, hmax, htt, -, -⟩ :=
    createRankedGameConfig_ok defaultRankedOverrides rand h0 h1 cfg hcfg
  have hdl : GameServer.queueDeadline ⟨id, T, cfg, roster, false, ping⟩ =
      T + 60 * 1000 := by
    unfold GameServer.queueDeadline GameServer.turnTimers
    rw [htt]
    rfl
  have hrf : GameServer.rosterFull ⟨id, T, cfg, roster, false, ping⟩ ↔
      RANKED_MAX_PLAYERS ≤ roster := by
    unfold GameServer.rosterFull
    rw [hmax]
    rfl
  refine ⟨?_, ?_, ?_, ?_, ?_⟩
  · intro hroster hnow
    unfold GameServer.phase
    rw [if_neg (by simp), if_pos hgt, if_neg]
    rw [hrf, hdl]
    push_neg
    exact ⟨by omega, by omega⟩
  · intro hfull
    unfold GameServer.phase
    rw [if_neg (by simp), if_pos hgt, if_pos]
    rw [hrf, hdl]
    exact hfull
  · unfold GameServer.phase
    rw [if_neg (by simp), if_pos hgt]
    split <;> simp
  · intro hstale
    unfold GameServer.phase
    dsimp only
    rw [if_pos rfl, if_pos (by omega)]
  · intro hfresh
    unfold GameServer.phase
    dsimp only
    rw [if_pos rfl, if_neg (by omega)]

/-- The concrete `GameConfig` produced by
`createRankedGameConfig defaultRankedOverrides 0` (draw 0 picks the first
pool entry, `World`). -/
def defaultRankedConfig : GameConfig :=
  { donateGold := false, donateTroops := false,
    gameMap := GameMapType.World, maxPlayers := some 40,
    gameType := GameType.Ranked, gameMapSize := GameMapSize.Normal,
    difficulty := Difficulty.Medium, infiniteGold := false,
    infiniteTroops := false, instantBuild := false, disableNPCs := true,
    gameMode := GameMode.FFA, playerTeams := none, bots := 0,
    disabledUnits := [], mapPool := some RANKED_MAP_POOL,
    turnTimers := some RANKED_TURN_TIMERS,
    fogRule := some RANKED_FOG_RULE }

/-- `createRankedGameConfig` with empty overrides and draw 0 yields the
concrete default ranked config. -/
lemma createRankedGameConfig_default_eval :
    createRankedGameConfig defaultRankedOverrides 0 =
      Except.ok defaultRankedConfig := by
  have hpick : pickRankedMap RANKED_MAP_POOL 0 =
      Except.ok GameMapType.World := by
    unfold pickRankedMap
    have hfl : (⌊(0 : ℚ) * ((RANKED_MAP_POOL.length : ℕ) : ℚ)⌋).toNat = 0 := by
      norm_num
    rw [if_neg (by simp [RANKED_MAP_POOL]), hfl]
    rfl
  unfold createRankedGameConfig defaultRankedOverrides
  dsimp only
  rw [hpick]
  rfl

/-- Witness for C1: the theorem applied to the concretely evaluated
default ranked preset, replaying the test's end-to-end scenario — empty
roster at time 0 queues; a full roster (40) lobbies; never Active before
start; started and 30 s without a ping finishes; started and freshly
pinged is active. -/
theorem phase_ranked_default_witness :
    GameServer.phase ⟨"g", 0, defaultRankedConfig, 0, false, 0⟩ 0 =
      GamePhase.RankedQueue ∧
    GameServer.phase ⟨"g", 0, defaultRankedConfig, 40, false, 0⟩ 0 =
      GamePhase.Lobby ∧
    (GameServer.phase ⟨"g", 0, defaultRankedConfig, 0, false, 0⟩ 0 ≠
      GamePhase.Active) ∧
    GameServer.phase ⟨"g", 0, defaultRankedConfig, 0, true, 0⟩ 30000 =
      GamePhase.Finished ∧
    GameServer.phase ⟨"g", 0, defaultRankedConfig, 0, true, 0⟩ 10000 =
      GamePhase.Active :=
  ⟨(phase_ranked_default 0 defaultRankedConfig (by norm_num) (by norm_num)
      createRankedGameConfig_default_eval "g" 0 0 0 0).1
      (by decide) (by norm_num),
   (phase_ranked_default 0 defaultRankedConfig (by norm_num) (by norm_num)
      createRankedGameConfig_default_eval "g" 0 0 0 40).2.1
      (Or.inl (by decide)),
   (phase_ranked_default 0 defaultRankedConfig (by norm_num) (by norm_num)
      createRankedGameConfig_default_eval "g" 0 0 0 0).2.2.1,
   (phase_ranked_default 0 defaultRankedConfig (by norm_num) (by norm_num)
      createRankedGameConfig_default_eval "g" 0 30000 0 0).2.2.2.1
      (by norm_num),
   (phase_ranked_default 0 defaultRankedConfig (by norm_num) (by norm_num)
      createRankedGameConfig_default_eval "g" 0 10000 0 0).2.2.2.2
      (by norm_num)⟩

/-- C5: for a ranked session built from the real ranked preset, while in
the `RankedQueue` phase, `gameInfo().msUntilStart` equals
`creationTime + queueSeconds * 1000`, and two `gameInfo()` reads at
different wall-clock times while still in the queue return the identical
snapshot — the reported deadline is a fixed function of the creation
timestamp. -/
theorem gameInfo_msUntilStart_fixed (rand : ℚ) (cfg : GameConfig)
    (h0 : 0 ≤ rand) (h1 : rand < 1)
    (hcfg : createRankedGameConfig defaultRankedOverrides rand =
      Except.ok cfg)
    (id : String) (T ping t₁ t₂ : ℤ) (roster : ℕ) (hs : Bool)
    (_hq1 : GameServer.phase ⟨id, T, cfg, roster, hs, ping⟩ t₁ =
      GamePhase.RankedQueue)
    (_hq2 : GameServer.phase ⟨id, T, cfg, roster, hs, ping⟩ t₂ =
      GamePhase.RankedQueue) :
    (GameServer.gameInfo ⟨id, T, cfg, roster, hs, ping⟩ t₁).msUntilStart =
      T + (RANKED_TURN_TIMERS.queueSeconds : ℤ) * 1000 ∧
    GameServer.gameInfo ⟨id, T, cfg, roster, hs, ping⟩ t₁ =
      GameServer.gameInfo ⟨id, T, cfg, roster, hs, ping⟩ t₂ := by
  obtain ⟨hgt, -, htt, -, -⟩ :=
    createRankedGameConfig_ok defaultRankedOverrides rand h0 h1 cfg hcfg
  constructor
  · unfold GameServer.gameInfo GameServer.queueDeadline GameServer.turnTimers
    rw [if_pos hgt, htt]
    rfl
  · rfl

/-- Witness for C5: two reads at times 0 and 15000 while the default
ranked session is still queueing. -/
theorem gameInfo_msUntilStart_fixed_witness :
    (GameServer.gameInfo
        ⟨"g", 0, defaultRankedConfig, 0, false, 0⟩ 0).msUntilStart =
      0 + (RANKED_TURN_TIMERS.queueSeconds : ℤ) * 1000 ∧
    GameServer.gameInfo ⟨"g", 0, defaultRankedConfig, 0, false, 0⟩ 0 =
      GameServer.gameInfo ⟨"g", 0, defaultRankedConfig, 0, false, 0⟩ 15000 :=
  gameInfo_msUntilStart_fixed 0 defaultRankedConfig (by norm_num)
    (by norm_num) createRankedGameConfig_default_eval "g" 0 0 0 15000 0 false
    (by decide) (by decide)

/-- C3: for a ranked session (spec-modelled update gating), a candidate
`gameMap` outside `RANKED_MAP_POOL` is silently ignored — the previous
config is retained unchanged and nothing is raised; a candidate inside
`RANKED_MAP_POOL` is accepted; a submitted `mapPool` is stored as exactly
its entries that are members of `RANKED_MAP_POOL` in submitted order, and
in particular `[World, Europe, Africa]` is stored as `[World, Europe]`.
The update function is total, so invalid input never raises. -/
theorem updateGameConfig_ranked_gating (cfg : GameConfig) (m : GameMapType)
    (l : List GameMapType) :
    (m ∉ RANKED_MAP_POOL →
      updateGameConfig cfg { gameMap := some m, mapPool := none } = cfg) ∧
    (m ∈ RANKED_MAP_POOL →
      (updateGameConfig cfg
        { gameMap := some m, mapPool := none }).gameMap = m) ∧
    ((updateGameConfig cfg
        { gameMap := none, mapPool := some l }).mapPool =
      some (l.filter (fun x => decide (x ∈ RANKED_MAP_POOL)))) ∧
    ((updateGameConfig cfg
        { gameMap := none,
          mapPool := some [GameMapType.World, GameMapType.Europe,
            GameMapType.Africa] }).mapPool =
      some [GameMapType.World, GameMapType.Europe]) := by
  refine ⟨?_, ?_, ?_, ?_⟩
  · intro hnot
    unfold updateGameConfig
    dsimp only
    rw [if_neg hnot]
  · intro hmem
    unfold updateGameConfig
    dsimp only
    rw [if_pos hmem]
  · rfl
  · rfl

/-- Witness for C3: the theorem applied to the test's concrete scenario —
candidate `Africa` is ignored, candidate `Europe` is accepted, and the
pool `[World, Europe, Africa]` is stored filtered to `[World, Europe]`. -/
theorem updateGameConfig_ranked_gating_witness :
    updateGameConfig defaultRankedConfig
      { gameMap := some GameMapType.Africa, mapPool := none } =
      defaultRankedConfig ∧
    (updateGameConfig defaultRankedConfig
      { gameMap := some GameMapType.Europe, mapPool := none }).gameMap =
      GameMapType.Europe ∧
    (updateGameConfig defaultRankedConfig
      { gameMap := none,
        mapPool := some [GameMapType.World, GameMapType.Europe,
          GameMapType.Africa] }).mapPool =
      some [GameMapType.World, GameMapType.Europe] :=
  ⟨(updateGameConfig_ranked_gating defaultRankedConfig GameMapType.Africa
      []).1 (by decide),
   (updateGameConfig_ranked_gating defaultRankedConfig GameMapType.Europe
      []).2.1 (by decide),
   (updateGameConfig_ranked_gating defaultRankedConfig GameMapType.Europe
      [GameMapType.World, GameMapType.Europe,
        GameMapType.Africa]).2.2.2⟩

/-- The overrides of the C4 counterexample: an explicit two-map pool with
`Europe` chosen as the map. -/
def narrowPoolOverrides : RankedOverrides :=
  { gameMap := some GameMapType.Europe,
    mapPool := some [GameMapType.World, GameMapType.Europe],
    maxPlayers := none, gameMapSize := none, difficulty := none,
    disabledUnits := none }

/-- The config `createRankedGameConfig narrowPoolOverrides` produces. -/
def narrowPoolConfig : GameConfig :=
  { donateGold := false, donateTroops := false,
    gameMap := GameMapType.Europe, maxPlayers := some 40,
    gameType := GameType.Ranked, gameMapSize := GameMapSize.Normal,
    difficulty := Difficulty.Medium, infiniteGold := false,
    infiniteTroops := false, instantBuild := false, disableNPCs := true,
    gameMode := GameMode.FFA, playerTeams := none, bots := 0,
    disabledUnits := [],
    mapPool := some [GameMapType.World, GameMapType.Europe],
    turnTimers := some RANKED_TURN_TIMERS,
    fogRule := some RANKED_FOG_RULE }

/-- Counterexample for C4: a ranked session created with the pool
`[World, Europe]` and map `Europe` satisfies the invariant at creation,
but the accepted update `gameMap := Asia` (a `RANKED_MAP_POOL` member) is
validated against `RANKED_MAP_POOL` rather than the stored `mapPool`, so
afterwards `gameMap = Asia ∉ mapPool = [World, Europe]`. -/
theorem gameMap_in_mapPool_not_preserved :
    createRankedGameConfig narrowPoolOverrides 0 =
      Except.ok narrowPoolConfig ∧
    narrowPoolConfig.gameMap ∈ narrowPoolConfig.mapPool.getD [] ∧
    (updateGameConfig narrowPoolConfig
      { gameMap := some GameMapType.Asia, mapPool := none }).gameMap =
      GameMapType.Asia ∧
    (updateGameConfig narrowPoolConfig
      { gameMap := some GameMapType.Asia, mapPool := none }).mapPool =
      some [GameMapType.World, GameMapType.Europe] ∧
    GameMapType.Asia ∉ [GameMapType.World, GameMapType.Europe] := by
  refine ⟨rfl, by decide, by decide, by decide, by decide⟩

/-- C4 (amended): for every choice of overrides and every draw in `[0,1)`,
immediately after creation via `createRankedGameConfig` a ranked config
has a non-empty `mapPool` containing its `gameMap`; after an accepted
`gameMap` update the stored `gameMap` is a member of `RANKED_MAP_POOL`,
but membership in the stored `mapPool` is not maintained. -/
theorem rankedConfig_creation_invariant (o : RankedOverrides) (rand : ℚ)
    (h0 : 0 ≤ rand) (h1 : rand < 1) (cfg : GameConfig)
    (hcfg : createRankedGameConfig o rand = Except.ok cfg) :
    (∃ pool, cfg.mapPool = some pool ∧ pool ≠ [] ∧ cfg.gameMap ∈ pool) ∧
    (∀ m ∈ RANKED_MAP_POOL,
      (updateGameConfig cfg
        { gameMap := some m, mapPool := none }).gameMap ∈ RANKED_MAP_POOL) := by
  obtain ⟨-, -, -, -, hpool⟩ :=
    createRankedGameConfig_ok o rand h0 h1 cfg hcfg
  refine ⟨hpool, ?_⟩
  intro m hm
  unfold updateGameConfig
  dsimp only
  rw [if_pos hm]
  exact hm

/-- Witness for C4 (amended): the theorem applied to the concretely
evaluated default preset, with the accepted-update part discharged at the
candidate `Asia`. -/
theorem rankedConfig_creation_invariant_witness :
    (∃ pool, defaultRankedConfig.mapPool = some pool ∧ pool ≠ [] ∧
      defaultRankedConfig.gameMap ∈ pool) ∧
    (updateGameConfig defaultRankedConfig
      { gameMap := some GameMapType.Asia, mapPool := none }).gameMap ∈
      RANKED_MAP_POOL :=
  ⟨(rankedConfig_creation_invariant defaultRankedOverrides 0 (by norm_num)
      (by norm_num) defaultRankedConfig
      createRankedGameConfig_default_eval).1,
   (rankedConfig_creation_invariant defaultRankedOverrides 0 (by norm_num)
      (by norm_num) defaultRankedConfig
      createRankedGameConfig_default_eval).2 GameMapType.Asia (by decide)⟩

/-- A session reads as `Finished` exactly when it has started and its
last liveness update is more than 20 s in the past. -/
lemma phase_finished_iff (s : GameServer) (now : ℤ) :
    s.phase now = GamePhase.Finished ↔
      s.hasStarted = true ∧ 20000 < now - s.lastPingUpdate := by
  unfold GameServer.phase
  constructor
  · intro h
    split_ifs at h with h1 h2 h3 h4
    all_goals simp_all
  · rintro ⟨hs, hp⟩
    rw [if_pos hs, if_pos (by omega)]

/-- The session state on which the C8 counterexample is exercised: a
started default-preset ranked session whose last ping is 30 s old. -/
def staleSession : GameServer :=
  { id := "g", createdAt := 0, gameConfig := defaultRankedConfig,
    activeClients := 0, hasStarted := true, lastPingUpdate := 0 }

/-- Counterexample for C8: at time 30000 the stale session reads
`Finished`, but a subsequent liveness (ping) update — one of the inputs
the claim quantifies over — makes `phase()` read `Active` again, an
earlier phase, because the phase is recomputed from `lastPingUpdate` on
every read. -/
theorem phase_finished_not_monotonic :
    GameServer.phase staleSession 30000 = GamePhase.Finished ∧
    ((runSession (staleSession, 30000) [SessionInput.ping]).1.phase
      (runSession (staleSession, 30000) [SessionInput.ping]).2 =
      GamePhase.Active) ∧
    GamePhase.Active ≠ GamePhase.Finished := by
  refine ⟨by decide, by decide, by decide⟩

/-- C8 (amended): once `phase()` has returned `Finished`, no subsequent
sequence of roster changes, configuration updates, or clock advances
makes `phase()` return an earlier phase; only a liveness (ping) update
can, since the phase is recomputed from `lastPingUpdate` on every read. -/
theorem phase_finished_stable_without_ping (s : GameServer) (now : ℤ)
    (inputs : List SessionInput)
    (hfin : s.phase now = GamePhase.Finished)
    (hnp : SessionInput.ping ∉ inputs) :
    (runSession (s, now) inputs).1.phase (runSession (s, now) inputs).2 =
      GamePhase.Finished := by
  induction inputs generalizing s now with
  | nil => exact hfin
  | cons i rest ih =>
    have hi : i ≠ SessionInput.ping := by
      intro he
      exact hnp (he ▸ List.mem_cons_self i rest)
    have hrest : SessionInput.ping ∉ rest := by
      intro hm
      exact hnp (List.mem_cons_of_mem i hm)
    rw [phase_finished_iff] at hfin
    show (runSession (stepSession (s, now) i) rest).1.phase
      (runSession (stepSession (s, now) i) rest).2 = GamePhase.Finished
    cases i with
    | setRoster n =>
        exact ih _ _ ((phase_finished_iff _ _).mpr ⟨hfin.1, hfin.2⟩) hrest
    | ping => exact absurd rfl hi
    | updateConfig u =>
        exact ih _ _ ((phase_finished_iff _ _).mpr ⟨hfin.1, hfin.2⟩) hrest
    | advanceClock d =>
        refine ih _ _ ((phase_finished_iff _ _).mpr ⟨hfin.1, ?_⟩) hrest
        have hd : (0 : ℤ) ≤ (d : ℤ) := Int.ofNat_nonneg d
        have h2 := hfin.2
        show 20000 < (now + (d : ℤ)) - s.lastPingUpdate
        omega

/-- The ping-free input sequence exercised by the C8 witness: a roster
change, a configuration update, and a clock advance. -/
def pingFreeInputs : List SessionInput :=
  [SessionInput.setRoster 5,
   SessionInput.updateConfig
     { gameMap := some GameMapType.Asia, mapPool := none },
   SessionInput.advanceClock 1000]

/-- Witness for C8 (amended): the stale session stays `Finished` through
a concrete ping-free input sequence (roster change, config update, clock
advance). -/
theorem phase_finished_stable_without_ping_witness :
    (runSession (staleSession, 30000) pingFreeInputs).1.phase
      (runSession (staleSession, 30000) pingFreeInputs).2 =
      GamePhase.Finished :=
  phase_finished_stable_without_ping staleSession 30000 pingFreeInputs
    (by decide) (by decide)

end GlobalWars
